import Mathlib

/-!
Verification development for the RAG backend of the AI deployment platform.

The definitions below are a shallow embedding of the Python source:

* services/document_service.py  (document ingestion and the word chunker)
* services/rag_service.py       (RAG query engine, vector point upsert)
* services/llm_service.py       (provider dispatch and the local mock provider)
* core/redis.py                 (RedisCache) and shared/redis_client.py (RedisClient)
* api/routes/rag.py             (SSE streaming wrapper)

Machine-level collaborators (Python str operations, hashlib.md5, the json
module, the redis key/value store, the qdrant point store) are embedded
faithfully: md5 is implemented bit for bit over Nat arithmetic, JSON
printing/parsing over an explicit Python-value type, and the stores as
association lists keyed the way the services key them.  External network
outcomes (LLM generation, embeddings, store failures) enter as explicit
Except-valued parameters.
-/

namespace AIPlat

/-! ## Python string primitives -/

/-- Helper for the whitespace split: cur is the word in progress, reversed. -/
def splitWsGo : List Char → List Char → List (List Char)
  | cur, [] => if cur.isEmpty then [] else [cur.reverse]
  | cur, c :: cs =>
    if c.isWhitespace then
      if cur.isEmpty then splitWsGo [] cs else cur.reverse :: splitWsGo [] cs
    else splitWsGo (c :: cur) cs

/-- Whitespace split used by Python str.split with no argument:
splits on runs of whitespace and never yields empty words. -/
def splitWs (l : List Char) : List (List Char) := splitWsGo [] l

/-- Python text.split(): the word list of a string. -/
def pySplit (s : String) : List String :=
  (splitWs s.toList).map (fun w => String.mk w)

/-- Python slice l[lo:hi] for integer bounds (negative indices count from
the end, then both bounds are clamped into range). -/
def pySlice (l : List α) (lo hi : Int) : List α :=
  let n : Int := l.length
  let lo' := (if lo < 0 then max (n + lo) 0 else min lo n).toNat
  let hi' := (if hi < 0 then max (n + hi) 0 else min hi n).toNat
  (l.take hi').drop lo'

/-- Python a or b for strings: the left operand unless it is falsy (empty). -/
def pyOrStr (a b : String) : String := if a = "" then b else a

/-- Containment of one char list in another at the head. -/
def leadsWith : List Char → List Char → Bool
  | [], _ => true
  | _ :: _, [] => false
  | a :: as, b :: bs => a == b && leadsWith as bs

/-- Occurrence of sub anywhere in hay: the Python substring test sub in hay. -/
def charsHave (sub : List Char) : List Char → Bool
  | [] => leadsWith sub []
  | c :: cs => leadsWith sub (c :: cs) || charsHave sub cs

/-- Python sub in s on strings. -/
def pyIn (sub s : String) : Bool := charsHave sub.toList s.toList

/-- Python text.lower() over the ASCII range. -/
def pyLower (s : String) : String := String.mk (s.toList.map Char.toLower)

/-- Python text.strip(): drop leading and trailing whitespace. -/
def pyStrip (s : String) : String :=
  String.mk
    (((s.toList.dropWhile Char.isWhitespace).reverse.dropWhile
      Char.isWhitespace).reverse)

/-! ## hashlib.md5, bit for bit over Nat (words are Nats reduced mod 2^32) -/

def M32 : Nat := 4294967296

def mask32 (x : Nat) : Nat := x % M32

def not32 (x : Nat) : Nat := Nat.xor x 4294967295

def rotl32 (x c : Nat) : Nat :=
  Nat.lor (mask32 (x <<< c)) (x >>> (32 - c))

/-- The 64 sine-derived round constants of RFC 1321. -/
def md5K : List Nat :=
  [0xd76aa478, 0xe8c7b756, 0x242070db, 0xc1bdceee,
   0xf57c0faf, 0x4787c62a, 0xa8304613, 0xfd469501,
   0x698098d8, 0x8b44f7af, 0xffff5bb1, 0x895cd7be,
   0x6b901122, 0xfd987193, 0xa679438e, 0x49b40821,
   0xf61e2562, 0xc040b340, 0x265e5a51, 0xe9b6c7aa,
   0xd62f105d, 0x02441453, 0xd8a1e681, 0xe7d3fbc8,
   0x21e1cde6, 0xc33707d6, 0xf4d50d87, 0x455a14ed,
   0xa9e3e905, 0xfcefa3f8, 0x676f02d9, 0x8d2a4c8a,
   0xfffa3942, 0x8771f681, 0x6d9d6122, 0xfde5380c,
   0xa4beea44, 0x4bdecfa9, 0xf6bb4b60, 0xbebfbc70,
   0x289b7ec6, 0xeaa127fa, 0xd4ef3085, 0x04881d05,
   0xd9d4d039, 0xe6db99e5, 0x1fa27cf8, 0xc4ac5665,
   0xf4292244, 0x432aff97, 0xab9423a7, 0xfc93a039,
   0x655b59c3, 0x8f0ccc92, 0xffeff47d, 0x85845dd1,
   0x6fa87e4f, 0xfe2ce6e0, 0xa3014314, 0x4e0811a1,
   0xf7537e82, 0xbd3af235, 0x2ad7d2bb, 0xeb86d391]

/-- The per-round left-rotation amounts of RFC 1321. -/
def md5S : List Nat :=
  [7, 12, 17, 22, 7, 12, 17, 22, 7, 12, 17, 22, 7, 12, 17, 22,
   5, 9, 14, 20, 5, 9, 14, 20, 5, 9, 14, 20, 5, 9, 14, 20,
   4, 11, 16, 23, 4, 11, 16, 23, 4, 11, 16, 23, 4, 11, 16, 23,
   6, 10, 15, 21, 6, 10, 15, 21, 6, 10, 15, 21, 6, 10, 15, 21]

/-- Little-endian byte rendering of a Nat, fixed width. -/
def toLEBytes (n count : Nat) : List Nat :=
  (List.range count).map (fun i => (n >>> (8 * i)) &&& 255)

/-- MD5 padding: a 0x80 byte, zeros to 56 mod 64, then the bit length
as a 64-bit little-endian quantity. -/
def md5Pad (msg : List Nat) : List Nat :=
  let len := msg.length
  let zeros := (119 - len % 64) % 64
  msg ++ [128] ++ List.replicate zeros 0 ++ toLEBytes ((len * 8) % 18446744073709551616) 8

/-- Helper for the block split: the Nat bound only forces structural
recursion; the wrapper passes the list length, which always suffices since
every step drops at least one element. -/
def toBlocksGo : Nat → List Nat → List (List Nat)
  | _, [] => []
  | 0, _ :: _ => []
  | fuel + 1, c :: cs => ((c :: cs).take 64) :: toBlocksGo fuel ((c :: cs).drop 64)

/-- Split a byte list into 64-byte blocks. -/
def toBlocks (l : List Nat) : List (List Nat) := toBlocksGo l.length l

/-- Little-endian 32-bit word g of a 64-byte block. -/
def blockWord (block : List Nat) (g : Nat) : Nat :=
  block.getD (4 * g) 0 + 256 * block.getD (4 * g + 1) 0 +
    65536 * block.getD (4 * g + 2) 0 + 16777216 * block.getD (4 * g + 3) 0

/-- The MD5 round mixing function, by round index. -/
def md5F (i b c d : Nat) : Nat :=
  if i < 16 then Nat.lor (b &&& c) ((not32 b) &&& d)
  else if i < 32 then Nat.lor (d &&& b) ((not32 d) &&& c)
  else if i < 48 then Nat.xor (Nat.xor b c) d
  else Nat.xor c (Nat.lor b (not32 d))

/-- The message-word schedule of MD5, by round index. -/
def md5G (i : Nat) : Nat :=
  if i < 16 then i
  else if i < 32 then (5 * i + 1) % 16
  else if i < 48 then (3 * i + 5) % 16
  else (7 * i) % 16

/-- One MD5 round on the (a, b, c, d) state. -/
def md5Step (block : List Nat) (st : Nat × Nat × Nat × Nat) (i : Nat) :
    Nat × Nat × Nat × Nat :=
  let (a, b, c, d) := st
  let f := mask32 (md5F i b c d + a + md5K.getD i 0 + blockWord block (md5G i))
  (d, mask32 (b + rotl32 f (md5S.getD i 0)), b, c)

/-- Process one 64-byte block: 64 rounds, then add into the running state. -/
def md5Block (st : Nat × Nat × Nat × Nat) (block : List Nat) :
    Nat × Nat × Nat × Nat :=
  let (a0, b0, c0, d0) := st
  let (a, b, c, d) := (List.range 64).foldl (md5Step block) (a0, b0, c0, d0)
  (mask32 (a0 + a), mask32 (b0 + b), mask32 (c0 + c), mask32 (d0 + d))

/-- The MD5 digest of a byte list, as 16 bytes. -/
def md5Digest (msg : List Nat) : List Nat :=
  let (a, b, c, d) :=
    (toBlocks (md5Pad msg)).foldl md5Block
      (0x67452301, 0xefcdab89, 0x98badcfe, 0x10325476)
  toLEBytes a 4 ++ toLEBytes b 4 ++ toLEBytes c 4 ++ toLEBytes d 4

/-- Lowercase hex digit. -/
def hexChar (n : Nat) : Char :=
  if n < 10 then Char.ofNat (48 + n) else Char.ofNat (87 + n)

/-- Two-digit lowercase hex rendering of a byte. -/
def byteHex (b : Nat) : List Char := [hexChar (b / 16), hexChar (b % 16)]

/-- Lowercase hex string of a byte list, as hexdigest() renders it. -/
def hexString (bs : List Nat) : String := String.mk ((bs.map byteHex).flatten)

/-- UTF-8 encoding of one character, as Python str.encode() produces it. -/
def utf8Char (c : Char) : List Nat :=
  let n := c.toNat
  if n < 128 then [n]
  else if n < 2048 then [192 + n / 64, 128 + n % 64]
  else if n < 65536 then [224 + n / 4096, 128 + (n / 64) % 64, 128 + n % 64]
  else [240 + n / 262144, 128 + (n / 4096) % 64, 128 + (n / 64) % 64, 128 + n % 64]

/-- UTF-8 bytes of a string. -/
def strBytes (s : String) : List Nat := (s.toList.map utf8Char).flatten

/-- hashlib.md5(s.encode()).hexdigest(). -/
def md5HexS (s : String) : String := hexString (md5Digest (strBytes s))

/-! ## Python values and the json module

Python runtime values as the services pass them around: the JSON-serializable
constructors plus uuid.UUID objects (which json.dumps rejects with a
TypeError).  Numbers are modeled as integers; no claim in this development
depends on float-valued fields, and where the source computes a float
(latency milliseconds, similarity scores) the embedding carries an integer
with the same role. -/

inductive PyVal where
  | null
  | bool (b : Bool)
  | num (n : Int)
  | str (s : String)
  | arr (xs : List PyVal)
  | obj (fields : List (String × PyVal))
  | uuid (s : String)
deriving Repr, BEq, Inhabited

/-- Python exception values, by class and message. -/
inductive PyErr where
  | typeError (msg : String)
  | valueError (msg : String)
  | runtimeError (msg : String)
  | nameError (msg : String)
  | dataError (msg : String)
  | storeError (msg : String)
  | jsonDecodeError (msg : String)
deriving Repr, BEq, DecidableEq

/-- Python str(e): the message of an exception. -/
def PyErr.msg : PyErr → String
  | .typeError m => m
  | .valueError m => m
  | .runtimeError m => m
  | .nameError m => m
  | .dataError m => m
  | .storeError m => m
  | .jsonDecodeError m => m

def openBraceChar : Char := Char.ofNat 123
def closeBraceChar : Char := Char.ofNat 125

/-- Four lowercase hex digits, for backslash-u escapes. -/
def hex4 (n : Nat) : List Char :=
  [hexChar (n / 4096 % 16), hexChar (n / 256 % 16), hexChar (n / 16 % 16), hexChar (n % 16)]

/-- One character in a JSON string as json.dumps (ensure_ascii) renders it. -/
def escChar (c : Char) : List Char :=
  let n := c.toNat
  if c = '"' then ['\\', '"']
  else if c = '\\' then ['\\', '\\']
  else if n = 10 then ['\\', 'n']
  else if n = 9 then ['\\', 't']
  else if n = 13 then ['\\', 'r']
  else if n = 8 then ['\\', 'b']
  else if n = 12 then ['\\', 'f']
  else if n < 32 then '\\' :: 'u' :: hex4 n
  else if n < 127 then [c]
  else if n < 65536 then '\\' :: 'u' :: hex4 n
  else
    let m := n - 65536
    ('\\' :: 'u' :: hex4 (55296 + m / 1024)) ++ ('\\' :: 'u' :: hex4 (56320 + m % 1024))

/-- The chars of a JSON string literal for s. -/
def dumpStrChars (s : String) : List Char :=
  '"' :: (s.toList.map escChar).flatten ++ ['"']

mutual

/-- json.dumps with default separators; fails with TypeError on a UUID. -/
def dumpVal : PyVal → Except PyErr (List Char)
  | .null => .ok ['n', 'u', 'l', 'l']
  | .bool true => .ok ['t', 'r', 'u', 'e']
  | .bool false => .ok ['f', 'a', 'l', 's', 'e']
  | .num n => .ok (toString n).toList
  | .str s => .ok (dumpStrChars s)
  | .arr xs => do
    let body ← dumpItems xs
    pure ('[' :: body ++ [']'])
  | .obj fs => do
    let body ← dumpFields fs
    pure (openBraceChar :: body ++ [closeBraceChar])
  | .uuid _ => .error (.typeError "Object of type UUID is not JSON serializable")

def dumpItems : List PyVal → Except PyErr (List Char)
  | [] => .ok []
  | [x] => dumpVal x
  | x :: y :: xs => do
    let cx ← dumpVal x
    let rest ← dumpItems (y :: xs)
    pure (cx ++ [',', ' '] ++ rest)

def dumpFields : List (String × PyVal) → Except PyErr (List Char)
  | [] => .ok []
  | [(k, v)] => do
    let cv ← dumpVal v
    pure (dumpStrChars k ++ [':', ' '] ++ cv)
  | (k, v) :: f :: fs => do
    let cv ← dumpVal v
    let rest ← dumpFields (f :: fs)
    pure (dumpStrChars k ++ [':', ' '] ++ cv ++ [',', ' '] ++ rest)

end

/-- json.dumps on a Python value, as a string. -/
def jsonDumps (v : PyVal) : Except PyErr String := (dumpVal v).map String.mk

/-- JSON whitespace skipping. -/
def skipWs (l : List Char) : List Char :=
  l.dropWhile (fun c => c == ' ' || c == '\n' || c == '\t' || c == '\r')

/-- Digits to a Nat. -/
def digitsToNat (ds : List Char) : Nat :=
  ds.foldl (fun a c => a * 10 + (c.toNat - 48)) 0

/-- Parse an integer literal (floats are outside the embedding's value type). -/
def parseNum (l : List Char) : Option (PyVal × List Char) :=
  match l with
  | '-' :: rest =>
    let ds := rest.takeWhile Char.isDigit
    if ds.isEmpty then Option.none
    else some (.num (-(digitsToNat ds : Int)), rest.drop ds.length)
  | _ =>
    let ds := l.takeWhile Char.isDigit
    if ds.isEmpty then Option.none
    else some (.num (digitsToNat ds : Int), l.drop ds.length)

/-- Parse the body of a JSON string literal after the opening quote. -/
def parseStrBody (fuel : Nat) (l : List Char) (acc : List Char) :
    Option (String × List Char) :=
  match fuel with
  | 0 => Option.none
  | fuel + 1 =>
    match l with
    | [] => Option.none
    | '"' :: rest => some (String.mk acc.reverse, rest)
    | '\\' :: e :: rest =>
      if e = '"' then parseStrBody fuel rest ('"' :: acc)
      else if e = '\\' then parseStrBody fuel rest ('\\' :: acc)
      else if e = '/' then parseStrBody fuel rest ('/' :: acc)
      else if e = 'n' then parseStrBody fuel rest (Char.ofNat 10 :: acc)
      else if e = 't' then parseStrBody fuel rest (Char.ofNat 9 :: acc)
      else if e = 'r' then parseStrBody fuel rest (Char.ofNat 13 :: acc)
      else if e = 'b' then parseStrBody fuel rest (Char.ofNat 8 :: acc)
      else if e = 'f' then parseStrBody fuel rest (Char.ofNat 12 :: acc)
      else if e = 'u' then
        match rest with
        | h1 :: h2 :: h3 :: h4 :: rest' =>
          match hexVal h1, hexVal h2, hexVal h3, hexVal h4 with
          | some a, some b, some c, some d =>
            let code := a * 4096 + b * 256 + c * 16 + d
            if 55296 ≤ code ∧ code < 56320 then
              match rest' with
              | '\\' :: 'u' :: g1 :: g2 :: g3 :: g4 :: rest2 =>
                match hexVal g1, hexVal g2, hexVal g3, hexVal g4 with
                | some a2, some b2, some c2, some d2 =>
                  let lo := a2 * 4096 + b2 * 256 + c2 * 16 + d2
                  if 56320 ≤ lo ∧ lo < 57344 then
                    parseStrBody fuel rest2
                      (Char.ofNat (65536 + (code - 55296) * 1024 + (lo - 56320)) :: acc)
                  else Option.none
                | _, _, _, _ => Option.none
              | _ => Option.none
            else parseStrBody fuel rest' (Char.ofNat code :: acc)
          | _, _, _, _ => Option.none
        | _ => Option.none
      else Option.none
    | c :: rest => parseStrBody fuel rest (c :: acc)
where
  hexVal (c : Char) : Option Nat :=
    let n := c.toNat
    if 48 ≤ n ∧ n ≤ 57 then some (n - 48)
    else if 97 ≤ n ∧ n ≤ 102 then some (n - 87)
    else if 65 ≤ n ∧ n ≤ 70 then some (n - 55)
    else Option.none

mutual

/-- Parse one JSON value. -/
def parseVal (fuel : Nat) (l : List Char) : Option (PyVal × List Char) :=
  match fuel with
  | 0 => Option.none
  | fuel + 1 =>
    let l := skipWs l
    if leadsWith ['n', 'u', 'l', 'l'] l then some (.null, l.drop 4)
    else if leadsWith ['t', 'r', 'u', 'e'] l then some (.bool true, l.drop 4)
    else if leadsWith ['f', 'a', 'l', 's', 'e'] l then some (.bool false, l.drop 5)
    else
      match l with
      | [] => Option.none
      | c :: rest =>
        if c = '"' then
          (parseStrBody (rest.length + 1) rest []).map (fun p => (.str p.1, p.2))
        else if c = openBraceChar then
          (parseObjItems fuel true rest).map (fun p => (.obj p.1, p.2))
        else if c = '[' then
          (parseArrItems fuel true rest).map (fun p => (.arr p.1, p.2))
        else parseNum l

/-- Parse array elements after the opening bracket (or after a comma). -/
def parseArrItems (fuel : Nat) (first : Bool) (l : List Char) :
    Option (List PyVal × List Char) :=
  match fuel with
  | 0 => Option.none
  | fuel + 1 =>
    let l := skipWs l
    if first && leadsWith [']'] l then some ([], l.drop 1)
    else
      match parseVal fuel l with
      | Option.none => Option.none
      | some (v, r) =>
        let r := skipWs r
        if leadsWith [','] r then
          match parseArrItems fuel false (r.drop 1) with
          | some (vs, r2) => some (v :: vs, r2)
          | Option.none => Option.none
        else if leadsWith [']'] r then some ([v], r.drop 1)
        else Option.none

/-- Parse object members after the opening brace (or after a comma). -/
def parseObjItems (fuel : Nat) (first : Bool) (l : List Char) :
    Option (List (String × PyVal) × List Char) :=
  match fuel with
  | 0 => Option.none
  | fuel + 1 =>
    let l := skipWs l
    if first && leadsWith [closeBraceChar] l then some ([], l.drop 1)
    else
      match l with
      | '"' :: rest =>
        match parseStrBody (rest.length + 1) rest [] with
        | Option.none => Option.none
        | some (k, r) =>
          let r := skipWs r
          if leadsWith [':'] r then
            match parseVal fuel (r.drop 1) with
            | Option.none => Option.none
            | some (v, r2) =>
              let r2 := skipWs r2
              if leadsWith [','] r2 then
                match parseObjItems fuel false (r2.drop 1) with
                | some (fs, r3) => some ((k, v) :: fs, r3)
                | Option.none => Option.none
              else if leadsWith [closeBraceChar] r2 then some ([(k, v)], r2.drop 1)
              else Option.none
          else Option.none
      | _ => Option.none

end

/-- json.loads: parse a whole string, rejecting trailing data. -/
def jsonLoads (s : String) : Option PyVal :=
  let cs := s.toList
  match parseVal (cs.length + 2) cs with
  | some (v, rest) => if (skipWs rest).isEmpty then some v else Option.none
  | Option.none => Option.none

/-- Python truthiness of a value. -/
def pyTruthy : PyVal → Bool
  | .null => false
  | .bool b => b
  | .num n => n != 0
  | .str s => !s.isEmpty
  | .arr xs => !xs.isEmpty
  | .obj fs => !fs.isEmpty
  | .uuid _ => true

/-! ## The redis store and the two cache wrappers

core/redis.py RedisCache (prefix "cache") and shared/redis_client.py
RedisClient.  The underlying redis server is an association list from keys
to string values with an optional absolute expiry time; a key set with
ttl n at time t is gone for reads at any time greater or equal t + n. -/

structure RedisEntry where
  key : String
  val : String
  expiresAt : Option Nat
deriving Repr, DecidableEq

abbrev RedisStore : Type := List RedisEntry

/-- Raw redis GET at an instant. -/
def redisGet (st : RedisStore) (now : Nat) (k : String) : Option String :=
  match st.find? (fun e => e.key == k) with
  | some e =>
    match e.expiresAt with
    | some t => if now < t then some e.val else Option.none
    | Option.none => some e.val
  | Option.none => Option.none

/-- Raw redis SET with optional expiry, overwriting any previous entry. -/
def redisSet (st : RedisStore) (now : Nat) (k v : String) (ex : Option Nat) :
    RedisStore :=
  ⟨k, v, ex.map (now + ·)⟩ :: st.filter (fun e => e.key != k)

/-- redis-py encoding of a non-dict, non-list value passed to client.set:
strings pass through, numbers are rendered in decimal, and bool or None
raise a DataError. -/
def redisEncode : PyVal → Except PyErr String
  | .str s => .ok s
  | .num n => .ok (toString n)
  | _ => .error (.dataError "Invalid input type")

/-- Python x or d for an optional integer: None and 0 both fall to d. -/
def pyOrNatOpt (x : Option Nat) (d : Nat) : Nat :=
  match x with
  | some n => if n = 0 then d else n
  | Option.none => d

/-- The key prefixing of core/redis.py RedisCache (prefix "cache"). -/
def cachePrefixed (k : String) : String := "cache:" ++ k

/-- settings.redis_cache_ttl. -/
def redisCacheTtl : Nat := 3600

/-- RedisCache.set: dict and list values go through json.dumps, everything
else is handed to the client raw; a missing or zero ttl falls back to the
configured default.  Serialization errors propagate. -/
def redisCacheSet (st : RedisStore) (now : Nat) (key : String) (v : PyVal)
    (ttl : Option Nat) : Except PyErr RedisStore :=
  let eff := pyOrNatOpt ttl redisCacheTtl
  match v with
  | .obj _ => (jsonDumps v).map (fun s => redisSet st now (cachePrefixed key) s (some eff))
  | .arr _ => (jsonDumps v).map (fun s => redisSet st now (cachePrefixed key) s (some eff))
  | _ => (redisEncode v).map (fun s => redisSet st now (cachePrefixed key) s (some eff))

/-- RedisCache.get: a missing or empty-string value reads as absent (Python
truthiness), otherwise the value is json-parsed, falling back to the raw
string when parsing fails. -/
def redisCacheGet (st : RedisStore) (now : Nat) (key : String) : Option PyVal :=
  match redisGet st now (cachePrefixed key) with
  | some s =>
    if s.isEmpty then Option.none
    else
      match jsonLoads s with
      | some v => some v
      | Option.none => some (.str s)
  | Option.none => Option.none

/-- RedisClient.set: always json.dumps, catching failures into a False
return with the store unchanged; expire None stores without expiry. -/
def redisClientSet (st : RedisStore) (now : Nat) (k : String) (v : PyVal)
    (expire : Option Nat) : Bool × RedisStore :=
  match jsonDumps v with
  | .ok s => (true, redisSet st now k s expire)
  | .error _ => (false, st)

/-- RedisClient.get: empty string reads as absent; parse failures are
caught and read as absent. -/
def redisClientGet (st : RedisStore) (now : Nat) (k : String) : Option PyVal :=
  match redisGet st now k with
  | some s => if s.isEmpty then Option.none else jsonLoads s
  | Option.none => Option.none

/-! ## services/llm_service.py -/

/-- Python x or d for an optional string: None and the empty string both
fall through to the default. -/
def pyOrStrOpt (x : Option String) (d : String) : String :=
  match x with
  | some s => pyOrStr s d
  | Option.none => d

/-- settings.default_llm_provider (core/config.py). -/
def defaultLlmProvider : String := "mock"

/-- The five canned answers of MOCK_RESPONSES. -/
def MOCK_RESPONSES : List String :=
  ["Based on my analysis, I can provide you with a comprehensive answer to your question. The key points to consider are: first, understanding the context is essential; second, we should evaluate the available options; and third, implementing a solution requires careful planning.",
   "That's an interesting question! Let me break it down for you. There are several factors at play here, and I'll walk you through each one to give you a complete picture.",
   "I'd be happy to help with that. Here's what I found: the solution involves a multi-step approach that addresses both the immediate concerns and long-term considerations.",
   "Great question! The answer depends on a few variables, but generally speaking, the best approach would be to start with the fundamentals and then build upon them systematically.",
   "Let me analyze this for you. From what I can see, there are three main aspects to consider. I'll explain each one and then provide my recommendation."]

/-- The result dict of a generation call. -/
structure GenResult where
  response : String
  model : String
  provider : String
  promptTokens : Nat
  completionTokens : Nat
  totalTokens : Nat
deriving Repr, DecidableEq, Inhabited

/-- LLMService generate mock: pick a canned answer (the random choice is
an explicit index here), add a context-aware leading clause, and estimate
token counts by whitespace word counts.  The simulated latency sleep and
the unused sampling parameters are unobservable and omitted. -/
def generateMock (prompt : String) (systemPrompt : Option String)
    (model : String) (choice : Fin 5) : GenResult :=
  let base := MOCK_RESPONSES.getD choice.val ""
  let lower := pyLower prompt
  let text :=
    if pyIn "?" prompt then "Regarding your question: " ++ base
    else if pyIn "create" lower || pyIn "generate" lower || pyIn "write" lower then
      "Here's what I've created for you: " ++ base
    else if pyIn "explain" lower || pyIn "describe" lower || pyIn "what is" lower then
      "Let me explain: " ++ base
    else base
  let pTok := (pySplit prompt).length +
    (match systemPrompt with
     | some s => (pySplit s).length
     | Option.none => 0)
  let cTok := (pySplit text).length
  { response := text, model := model, provider := "mock",
    promptTokens := pTok, completionTokens := cTok, totalTokens := pTok + cTok }

/-- Outcomes of the three client-backed generation branches, as the network
and client state would deliver them. -/
structure ProviderOracles where
  gemini : Except PyErr GenResult
  openai : Except PyErr GenResult
  anthropic : Except PyErr GenResult

/-- LLMService generate without a cache key (the RAG engine always calls it
that way): resolve the provider key, dispatch on it, and raise ValueError
on an unknown key. -/
def llmGenerate (prompt : String) (systemPrompt : Option String)
    (model : Option String) (provider : Option String) (choice : Fin 5)
    (oracles : ProviderOracles) : Except PyErr GenResult :=
  let p := pyOrStrOpt provider defaultLlmProvider
  if p = "mock" then
    .ok (generateMock prompt systemPrompt (pyOrStrOpt model "mock-model-v1") choice)
  else if p = "gemini" then oracles.gemini
  else if p = "openai" then oracles.openai
  else if p = "anthropic" then oracles.anthropic
  else .error (.valueError ("Unsupported provider: " ++ p))

/-- The provider branch a streaming generation request is routed to. -/
inductive StreamRoute where
  | gemini
  | openai
  | anthropic
deriving Repr, DecidableEq

/-- LLMService generate stream dispatch: there is no mock branch, so every
provider key outside the three hosted ones - including "mock" - raises
ValueError. -/
def generateStreamDispatch (provider : Option String) : Except PyErr StreamRoute :=
  let p := pyOrStrOpt provider defaultLlmProvider
  if p = "gemini" then .ok .gemini
  else if p = "openai" then .ok .openai
  else if p = "anthropic" then .ok .anthropic
  else .error (.valueError ("Unsupported provider: " ++ p))

/-- The provider branch an embedding request is routed to. -/
inductive EmbedRoute where
  | gemini
  | openai
deriving Repr, DecidableEq

/-- LLMService create embedding dispatch: gemini and openai are explicit,
and every other key silently falls through to the Gemini branch. -/
def createEmbeddingDispatch (provider : Option String) : EmbedRoute :=
  let p := pyOrStrOpt provider defaultLlmProvider
  if p = "gemini" then .gemini
  else if p = "openai" then .openai
  else .gemini

/-- LLMService create embeddings batch dispatch: gemini and openai are
explicit, every other key raises ValueError. -/
def createEmbeddingsBatchDispatch (provider : Option String) :
    Except PyErr EmbedRoute :=
  let p := pyOrStrOpt provider defaultLlmProvider
  if p = "gemini" then .ok .gemini
  else if p = "openai" then .ok .openai
  else .error (.valueError ("Unsupported provider: " ++ p))

/-! ## DocumentService chunk text (services/document_service.py) -/

/-- One chunk dict as the chunker produces it: content, document back
references, 0-based index, and a metadata map whose only key is
total_chunks (absent until the back-fill pass). -/
structure ChunkDict where
  id? : Option String
  content : String
  documentId : String
  documentName : String
  chunkIndex : Nat
  metaTotalChunks : Option Nat
deriving Repr, DecidableEq, Inhabited

/-- The sliding-window loop of chunk text.  start is an integer as in
Python (the step start = end - overlap can move it below zero when
overlap exceeds the chunk size); fuel bounds the number of iterations,
with none marking an unfinished (diverging) loop. -/
def chunkLoop (docId docName : String) (chunkSize chunkOverlap : Nat)
    (words : List String) :
    Nat → Int → Nat → List ChunkDict → Option (List ChunkDict)
  | fuel, start, idx, acc =>
    if start < (words.length : Int) then
      match fuel with
      | 0 => Option.none
      | fuel + 1 =>
        let endI := start + (chunkSize : Int)
        let cw := pySlice words start endI
        let c : ChunkDict :=
          { id? := Option.none, content := String.intercalate " " cw,
            documentId := docId, documentName := docName,
            chunkIndex := idx, metaTotalChunks := Option.none }
        chunkLoop docId docName chunkSize chunkOverlap words fuel
          (endI - (chunkOverlap : Int)) (idx + 1) (acc ++ [c])
    else some acc

/-- DocumentService chunk text: one whole-text chunk when the word count
fits in the window, otherwise the sliding-window loop followed by the
two-pass total chunks back-fill. -/
def chunkText (docId docName : String) (text : String)
    (chunkSize chunkOverlap : Nat) : Option (List ChunkDict) :=
  let words := pySplit text
  if words.length ≤ chunkSize then
    some [{ id? := Option.none, content := pyStrip text, documentId := docId,
            documentName := docName, chunkIndex := 0, metaTotalChunks := some 1 }]
  else
    match chunkLoop docId docName chunkSize chunkOverlap words
        words.length 0 0 [] with
    | some cs => some (cs.map (fun c => { c with metaTotalChunks := some cs.length }))
    | Option.none => Option.none

/-! ## RAGService (services/rag_service.py) -/

/-- A retrieved chunk as the search path returns it.  The similarity score
is carried opaquely as an integer stand-in for the float the store reports. -/
structure RetrievedChunk where
  documentId : String
  documentName : String
  content : String
  score : Int
  metaTotalChunks : Option Nat
  chunkIndex : Nat
deriving Repr, DecidableEq, Inhabited

/-- The RAGResponse schema (api/models/rag.py).  Latency is carried in
integral milliseconds. -/
structure RAGResponse where
  answer : String
  query : String
  chunks : List RetrievedChunk
  modelUsed : String
  totalTokens : Nat
  promptTokens : Nat
  completionTokens : Nat
  latencyMs : Nat
  cached : Bool
deriving Repr, DecidableEq, Inhabited

/-- The RAGQuery request schema, keeping the fields the engine reads. -/
structure RAGQuery where
  query : String
  collectionName : String
  topK : Nat
  scoreThreshold : Int
  model : Option String
  systemPrompt : Option String
deriving Repr, DecidableEq, Inhabited

/-- The metadata dict of a retrieved chunk, as a Python value. -/
def chunkMetaVal (m : Option Nat) : PyVal :=
  match m with
  | some n => .obj [("total_chunks", .num n)]
  | Option.none => .obj []

/-- model_dump of a RetrievedChunk in python mode: the document_id field
stays a UUID object. -/
def dumpRetrievedChunk (c : RetrievedChunk) : PyVal :=
  .obj [("document_id", .uuid c.documentId),
        ("document_name", .str c.documentName),
        ("content", .str c.content),
        ("score", .num c.score),
        ("metadata", chunkMetaVal c.metaTotalChunks),
        ("chunk_index", .num c.chunkIndex)]

/-- RAGResponse.model_dump() in python mode: all nine declared fields, in
declaration order, the cached flag included. -/
def modelDumpResponse (r : RAGResponse) : PyVal :=
  .obj [("answer", .str r.answer),
        ("query", .str r.query),
        ("chunks", .arr (r.chunks.map dumpRetrievedChunk)),
        ("model_used", .str r.modelUsed),
        ("total_tokens", .num r.totalTokens),
        ("prompt_tokens", .num r.promptTokens),
        ("completion_tokens", .num r.completionTokens),
        ("latency_ms", .num r.latencyMs),
        ("cached", .bool r.cached)]

/-- Python keyword-argument combination f(**base, extra...): a key present
in both raises TypeError at the call site, before the callee runs. -/
def kwargsJoin (base extra : List (String × PyVal)) :
    Except PyErr (List (String × PyVal)) :=
  match extra.find? (fun kv => base.any (fun b => b.1 == kv.1)) with
  | some kv =>
    .error (.typeError ("got multiple values for keyword argument " ++ kv.1))
  | Option.none => .ok (base ++ extra)

/-- Field lookup in a keyword-argument list. -/
def getField (fs : List (String × PyVal)) (k : String) : Option PyVal :=
  (fs.find? (fun kv => kv.1 == k)).map (fun kv => kv.2)

/-- pydantic validation of one retrieved chunk from a field dict;
document_id accepts a UUID object or its string form. -/
def chunkOfVal : PyVal → Except PyErr RetrievedChunk
  | .obj fs =>
    match getField fs "document_id", getField fs "document_name",
        getField fs "content", getField fs "score", getField fs "chunk_index" with
    | some did, some (.str dn), some (.str ct), some (.num sc), some (.num ci) =>
      match did with
      | .uuid u => .ok ⟨u, dn, ct, sc, Option.none, ci.toNat⟩
      | .str u => .ok ⟨u, dn, ct, sc, Option.none, ci.toNat⟩
      | _ => .error (.valueError "validation error for RetrievedChunk")
    | _, _, _, _, _ => .error (.valueError "validation error for RetrievedChunk")
  | _ => .error (.valueError "validation error for RetrievedChunk")

/-- pydantic construction RAGResponse(...) from keyword arguments. -/
def ragResponseOfKwargs (fs : List (String × PyVal)) : Except PyErr RAGResponse :=
  match getField fs "answer", getField fs "query", getField fs "chunks",
      getField fs "model_used", getField fs "total_tokens",
      getField fs "prompt_tokens", getField fs "completion_tokens",
      getField fs "latency_ms", getField fs "cached" with
  | some (.str a), some (.str q), some (.arr cs), some (.str mu),
      some (.num tt), some (.num pt), some (.num ct), some (.num lm),
      some (.bool cf) => do
    let chunks ← cs.mapM chunkOfVal
    pure ⟨a, q, chunks, mu, tt.toNat, pt.toNat, ct.toNat, lm.toNat, cf⟩
  | _, _, _, _, _, _, _, _, _ =>
    .error (.valueError "validation error for RAGResponse")

/-- The default grounded-answer system prompt of RAGService.query. -/
def ragDefaultSystemPrompt : String :=
  "You are a helpful AI assistant. \nAnswer the user's question based on the provided context. \nIf the context doesn't contain relevant information, say so.\nAlways cite your sources when possible."

/-- Source blocks joined by the fixed delimiter. -/
def buildContext (chunks : List RetrievedChunk) : String :=
  String.intercalate "\n\n---\n\n"
    (chunks.map (fun c => "Source: " ++ c.documentName ++ "\n" ++ c.content))

/-- The grounded prompt fed to generation. -/
def buildPrompt (context q : String) : String :=
  "Context:\n" ++ context ++ "\n\nQuestion: " ++ q ++ "\n\nAnswer:"

/-- The response-cache key of a query: an md5 of query and collection. -/
def ragCacheKey (q : RAGQuery) : String :=
  "rag:" ++ md5HexS (q.query ++ ":" ++ q.collectionName)

/-- Which side effects a query run performed. -/
structure QueryEffects where
  searched : Bool
  generated : Bool
deriving Repr, DecidableEq

/-- RAGService.query.  now and endTime are the wall-clock instants at entry
and at response assembly; searchR is the outcome the vector store and the
embedding call deliver for this query; generation runs through llmGenerate
with no explicit provider, so the configured default provider decides the
branch.  Returns the response or the propagated exception, the cache store
after the call, and which pipeline stages ran. -/
def ragQuery (q : RAGQuery) (store : RedisStore) (now endTime : Nat)
    (searchR : Except PyErr (List RetrievedChunk))
    (choice : Fin 5) (oracles : ProviderOracles) :
    Except PyErr RAGResponse × RedisStore × QueryEffects :=
  let key := ragCacheKey q
  let missPath :=
    match searchR with
    | .error e => (.error e, store, ⟨true, false⟩)
    | .ok chunks =>
      let context := buildContext chunks
      let sys := pyOrStrOpt q.systemPrompt ragDefaultSystemPrompt
      let prompt := buildPrompt context q.query
      match llmGenerate prompt (some sys) q.model Option.none choice oracles with
      | .error e => (.error e, store, ⟨true, true⟩)
      | .ok g =>
        let resp : RAGResponse :=
          { answer := g.response, query := q.query, chunks := chunks,
            modelUsed := g.model, totalTokens := g.totalTokens,
            promptTokens := g.promptTokens, completionTokens := g.completionTokens,
            latencyMs := endTime - now, cached := false }
        match redisCacheSet store now key (modelDumpResponse resp) (some 3600) with
        | .ok store' => (.ok resp, store', ⟨true, true⟩)
        | .error e => (.error e, store, ⟨true, true⟩)
  match redisCacheGet store now key with
  | some cachedVal =>
    if pyTruthy cachedVal then
      match cachedVal with
      | .obj fs =>
        (match kwargsJoin fs [("cached", .bool true)] with
         | .ok kw => ragResponseOfKwargs kw
         | .error e => .error e,
         store, ⟨false, false⟩)
      | _ => (.error (.typeError "argument of type after ** must be a mapping"),
              store, ⟨false, false⟩)
    else missPath
  | Option.none => missPath

/-- One event of the streaming response. -/
structure RAGStreamChunk where
  type : String
  content : Option String
  chunks : Option (List RetrievedChunk)
  error : Option String
deriving Repr, DecidableEq, Inhabited

def mkSourcesEvent (cs : List RetrievedChunk) : RAGStreamChunk :=
  ⟨"sources", Option.none, some cs, Option.none⟩

def mkChunkEvent (t : String) : RAGStreamChunk :=
  ⟨"chunk", some t, Option.none, Option.none⟩

def mkDoneEvent : RAGStreamChunk :=
  ⟨"done", Option.none, Option.none, Option.none⟩

/-- RAGService.query_stream.  genStream is the fragment sequence the
provider stream yields together with the exception, if any, it raises after
those fragments (an unsupported provider raises before the first one).
Returns the events the generator yields, in order, and the exception that
propagates out of it; there is no error-translating handler in the
generator. -/
def ragQueryStream (searchR : Except PyErr (List RetrievedChunk))
    (genStream : List String × Option PyErr) :
    List RAGStreamChunk × Option PyErr :=
  match searchR with
  | .error e => ([], some e)
  | .ok chunks =>
    let events := mkSourcesEvent chunks :: genStream.1.map mkChunkEvent
    match genStream.2 with
    | some e => (events, some e)
    | Option.none => (events ++ [mkDoneEvent], Option.none)

/-- model_dump_json of a stream event (json mode renders UUIDs as strings,
so this always serializes). -/
def dumpStreamChunk (ev : RAGStreamChunk) : String :=
  let chunkJson (c : RetrievedChunk) : PyVal :=
    .obj [("document_id", .str c.documentId),
          ("document_name", .str c.documentName),
          ("content", .str c.content),
          ("score", .num c.score),
          ("metadata", chunkMetaVal c.metaTotalChunks),
          ("chunk_index", .num c.chunkIndex)]
  let v : PyVal :=
    .obj [("type", .str ev.type),
          ("content", match ev.content with | some s => .str s | Option.none => .null),
          ("chunks", match ev.chunks with
                     | some cs => .arr (cs.map chunkJson)
                     | Option.none => .null),
          ("error", match ev.error with | some s => .str s | Option.none => .null),
          ("metadata", .obj [])]
  match jsonDumps v with
  | .ok s => s
  | .error _ => ""

/-- The SSE wrapper of the stream route (api/routes/rag.py): each event
becomes one data line, and the literal DONE line follows only when the
service generator finishes without raising; an exception propagates and
ends the HTTP stream abruptly. -/
def sseLines (out : List RAGStreamChunk × Option PyErr) :
    List String × Option PyErr :=
  let dataLines := out.1.map (fun ev => "data: " ++ dumpStreamChunk ev ++ "\n\n")
  match out.2 with
  | some e => (dataLines, some e)
  | Option.none => (dataLines ++ ["data: [DONE]\n\n"], Option.none)

/-! ## Vector point upsert (RAGService.add_chunks) -/

/-- One stored point: id, vector, and the payload fields the service writes. -/
structure QdrantPoint where
  id : String
  vector : List Int
  content : String
  documentId : String
  documentName : String
  chunkIndex : Nat
  metaTotalChunks : Option Nat
deriving Repr, DecidableEq, Inhabited

/-- The point store of one collection; upsert overwrites by point id. -/
abbrev QdrantStore : Type := List QdrantPoint

/-- Qdrant upsert semantics: each incoming point replaces any stored point
with the same id. -/
def qdrantUpsert (st : QdrantStore) (ps : List QdrantPoint) : QdrantStore :=
  ps.foldl (fun acc p => p :: acc.filter (fun q => q.id != p.id)) st

/-- The deterministic point id of add_chunks: an explicit truthy id wins,
otherwise the md5 of document_id underscore chunk_index. -/
def pointIdOf (c : ChunkDict) : String :=
  match c.id? with
  | some s => if s.isEmpty then md5HexS (c.documentId ++ "_" ++ toString c.chunkIndex) else s
  | Option.none => md5HexS (c.documentId ++ "_" ++ toString c.chunkIndex)

/-- RAGService.add_chunks: embed all chunk contents in one batched call,
build the points (ids as above), upsert them, and return how many points
were written.  embedR is the batch-embedding outcome, upsertFail a store
failure of the upsert call. -/
def addChunks (chunks : List ChunkDict)
    (embedR : Except PyErr (List (List Int))) (upsertFail : Option PyErr)
    (st : QdrantStore) : Except PyErr (Nat × QdrantStore) :=
  if chunks.isEmpty then .ok (0, st)
  else
    match embedR with
    | .error e => .error e
    | .ok embs =>
      let points := (chunks.zip embs).map (fun ce =>
        ({ id := pointIdOf ce.1, vector := ce.2, content := ce.1.content,
           documentId := ce.1.documentId, documentName := ce.1.documentName,
           chunkIndex := ce.1.chunkIndex,
           metaTotalChunks := ce.1.metaTotalChunks } : QdrantPoint))
      match upsertFail with
      | some e => .error e
      | Option.none => .ok (points.length, qdrantUpsert st points)

/-! ## DocumentService.process_document -/

/-- The Document row fields the ingestion pipeline writes. -/
structure DocumentRec where
  name : String
  fileSize : Nat
  collectionName : String
  status : String
  errorMessage : Option String
  chunkCount : Nat
  tokenCount : Nat
  processedAt : Option Nat
deriving Repr, DecidableEq, Inhabited

/-- settings.upload_max_size_mb (core/config.py). -/
def uploadMaxSizeMb : Nat := 50

/-- DocumentService.process_document.  fileSize is the byte length of the
upload; extractR the text-extraction outcome; embedR and upsertFail the
embedding and vector-store outcomes; st the point store; docId the id the
database assigns; now the completion instant.  The Bool reports whether the
temporary file was unlinked.  The outer Option marks chunker divergence,
which chunkText_total_at_defaults rules out for the fixed 1000/200
parameters. -/
def processDocument (filename : String) (fileSize : Nat)
    (collection : String) (docId : String)
    (extractR : Except PyErr String)
    (embedR : Except PyErr (List (List Int))) (upsertFail : Option PyErr)
    (st : QdrantStore) (now : Nat) :
    Option (Except PyErr (DocumentRec × QdrantStore × Bool)) :=
  if fileSize > uploadMaxSizeMb * 1024 * 1024 then
    some (.error (.valueError
      ("File size exceeds maximum of " ++ toString uploadMaxSizeMb ++ "MB")))
  else
    let base : DocumentRec :=
      { name := filename, fileSize := fileSize, collectionName := collection,
        status := "processing", errorMessage := Option.none,
        chunkCount := 0, tokenCount := 0, processedAt := Option.none }
    match extractR with
    | .error e =>
      some (.ok ({ base with status := "failed", errorMessage := some e.msg }, st, false))
    | .ok text =>
      match chunkText docId filename text 1000 200 with
      | Option.none => Option.none
      | some chunks =>
        match addChunks chunks embedR upsertFail st with
        | .error e =>
          some (.ok ({ base with status := "failed", errorMessage := some e.msg }, st, false))
        | .ok (cnt, st') =>
          let done : DocumentRec :=
            { base with
              status := "completed"
              chunkCount := cnt
              tokenCount := (pySplit text).length
              processedAt := some now }
          some (.ok (done, st', true))

end AIPlat



namespace AIPlat

/-! ## Word-split helper lemmas -/

/-- A split with a word in progress never returns the empty list. -/
theorem splitWsGo_ne_nil_of_cur (l : List Char) :
    ∀ cur : List Char, cur ≠ [] → splitWsGo cur l ≠ [] := by
  induction l with
  | nil =>
    intro cur hcur
    simp [splitWsGo, List.isEmpty_iff, hcur]
  | cons a as ih =>
    intro cur hcur
    rw [splitWsGo]
    by_cases hws : a.isWhitespace
    · simp [hws, List.isEmpty_iff, hcur]
    · exact fun h => ih (a :: cur) (by simp) (by simpa [hws] using h)

/-- A list holding any non-whitespace character splits into at least one
word, whatever word is in progress. -/
theorem splitWsGo_ne_nil_of_mem (l : List Char) :
    ∀ (cur : List Char) (c : Char), c ∈ l → c.isWhitespace = false →
      splitWsGo cur l ≠ [] := by
  induction l with
  | nil => intro cur c hc; cases hc
  | cons a as ih =>
    intro cur c hc hw
    rw [splitWsGo]
    by_cases hws : a.isWhitespace
    · have hcas : c ∈ as := by
        rcases List.mem_cons.mp hc with h | h
        · subst h; rw [hws] at hw; cases hw
        · exact h
      by_cases hcur : cur.isEmpty
      · simpa [hws, hcur] using ih [] c hcas hw
      · simp [hws, hcur]
    · simpa [hws] using splitWsGo_ne_nil_of_cur as (a :: cur) (by simp)

/-- A string holding any non-whitespace character has a non-empty word
list. -/
theorem pySplit_ne_nil_of_mem (s : String) (c : Char) (hc : c ∈ s.toList)
    (hw : c.isWhitespace = false) : pySplit s ≠ [] := by
  have h := splitWsGo_ne_nil_of_mem s.toList [] c hc hw
  simp only [pySplit, splitWs, ne_eq, List.map_eq_nil_iff]
  exact h

/-- Appending on the left preserves a non-empty word list. -/
theorem pySplit_append_ne_nil (p s : String) (c : Char) (hc : c ∈ s.toList)
    (hw : c.isWhitespace = false) : pySplit (p ++ s) ≠ [] := by
  refine pySplit_ne_nil_of_mem _ c ?_ hw
  have : (p ++ s).toList = p.toList ++ s.toList := by
    simp [String.toList, String.data_append]
  rw [this]
  exact List.mem_append_right _ hc

/-- gemini, openai and anthropic client outcomes for runs where no hosted
branch is reached. -/
def idleOracles : ProviderOracles :=
  ⟨.error (.runtimeError "Gemini client not initialized. Set GEMINI_API_KEY."),
   .error (.runtimeError "OpenAI client not initialized"),
   .error (.runtimeError "Anthropic client not initialized")⟩

/-- C3, counterexample: the streaming entry point has no mock branch, so
provider mock raises ValueError instead of completing; and a whitespace-only
(hence non-empty) prompt yields a prompt token count of zero. -/
theorem mock_stream_missing_branch :
    generateStreamDispatch (some "mock") =
      .error (.valueError "Unsupported provider: mock") ∧
    (" " : String) ≠ "" ∧
    ∃ r, llmGenerate " " Option.none Option.none (some "mock") (0 : Fin 5)
        idleOracles = .ok r ∧ r.promptTokens = 0 := by
  exact ⟨rfl, by decide, _, rfl, rfl⟩

/-- C3, as amended: the mock generation branch never fails and always
returns non-empty text with at least one completion token, and at least one
prompt token whenever the prompt has at least one word; the streaming entry
point, by contrast, rejects provider mock with ValueError. -/
theorem llmGenerate_mock_spec (prompt : String) (sys : Option String)
    (model : Option String) (choice : Fin 5) (oracles : ProviderOracles) :
    (∃ r, llmGenerate prompt sys model (some "mock") choice oracles = .ok r ∧
      r.response ≠ "" ∧ 1 ≤ r.completionTokens ∧
      (pySplit prompt ≠ [] → 1 ≤ r.promptTokens)) ∧
    generateStreamDispatch (some "mock") =
      .error (.valueError "Unsupported provider: mock") := by
  constructor
  · refine ⟨generateMock prompt sys (pyOrStrOpt model "mock-model-v1") choice,
      ?_, ?_, ?_, ?_⟩
    · simp [llmGenerate, pyOrStrOpt, pyOrStr]
    · have hbase : ∃ c ∈ (MOCK_RESPONSES.getD choice.val "").toList,
          c.isWhitespace = false := by
        fin_cases choice <;> exact ⟨'a', by decide, by decide⟩
      obtain ⟨c, hc, hw⟩ := hbase
      have hne : pySplit (generateMock prompt sys
          (pyOrStrOpt model "mock-model-v1") choice).response ≠ [] := by
        unfold generateMock
        dsimp only
        split
        · exact pySplit_append_ne_nil _ _ c hc hw
        · split
          · exact pySplit_append_ne_nil _ _ c hc hw
          · split
            · exact pySplit_append_ne_nil _ _ c hc hw
            · exact pySplit_ne_nil_of_mem _ c hc hw
      intro h
      rw [h] at hne
      exact hne rfl
    · have hbase : ∃ c ∈ (MOCK_RESPONSES.getD choice.val "").toList,
          c.isWhitespace = false := by
        fin_cases choice <;> exact ⟨'a', by decide, by decide⟩
      obtain ⟨c, hc, hw⟩ := hbase
      have hne : pySplit (generateMock prompt sys
          (pyOrStrOpt model "mock-model-v1") choice).response ≠ [] := by
        unfold generateMock
        dsimp only
        split
        · exact pySplit_append_ne_nil _ _ c hc hw
        · split
          · exact pySplit_append_ne_nil _ _ c hc hw
          · split
            · exact pySplit_append_ne_nil _ _ c hc hw
            · exact pySplit_ne_nil_of_mem _ c hc hw
      have : (generateMock prompt sys (pyOrStrOpt model "mock-model-v1")
          choice).completionTokens =
          (pySplit (generateMock prompt sys (pyOrStrOpt model "mock-model-v1")
            choice).response).length := rfl
      rw [this]
      exact List.length_pos.mpr hne
    · intro hp
      have : 1 ≤ (pySplit prompt).length := List.length_pos.mpr hp
      simp only [generateMock]
      omega
  · rfl

/-- A witness run of the mock-generation specification at a concrete
prompt with one word. -/
theorem llmGenerate_mock_spec_witness :
    ∃ r, llmGenerate "hello" Option.none Option.none (some "mock")
        (0 : Fin 5) idleOracles = .ok r ∧
      r.response ≠ "" ∧ 1 ≤ r.completionTokens ∧ 1 ≤ r.promptTokens := by
  obtain ⟨⟨r, h1, h2, h3, h4⟩, _⟩ :=
    llmGenerate_mock_spec "hello" Option.none Option.none (0 : Fin 5) idleOracles
  exact ⟨r, h1, h2, h3, h4 (by decide)⟩

/-- C9, counterexample: an unknown provider key is routed to the Gemini
embedding branch by create embedding instead of raising the
unsupported-provider error the other operations raise. -/
theorem createEmbedding_silent_fallback :
    createEmbeddingDispatch (some "bogus") = .gemini ∧
    createEmbeddingDispatch (some "mistral") = .gemini := ⟨rfl, rfl⟩

/-- C9, as amended: generation, streaming and batch embedding fail fast
with ValueError on an unknown provider key, while single-text embedding
silently falls back to the Gemini branch for every key other than openai
and gemini. -/
theorem unknown_provider_routes (p : String) (h0 : p ≠ "") (h1 : p ≠ "mock")
    (h2 : p ≠ "gemini") (h3 : p ≠ "openai") (h4 : p ≠ "anthropic") :
    (∀ prompt sys model choice oracles,
      llmGenerate prompt sys model (some p) choice oracles =
        .error (.valueError ("Unsupported provider: " ++ p))) ∧
    generateStreamDispatch (some p) =
      .error (.valueError ("Unsupported provider: " ++ p)) ∧
    createEmbeddingsBatchDispatch (some p) =
      .error (.valueError ("Unsupported provider: " ++ p)) ∧
    createEmbeddingDispatch (some p) = .gemini := by
  refine ⟨fun prompt sys model choice oracles => ?_, ?_, ?_, ?_⟩ <;>
    simp [llmGenerate, generateStreamDispatch, createEmbeddingsBatchDispatch,
      createEmbeddingDispatch, pyOrStrOpt, pyOrStr, h0, h1, h2, h3, h4]

/-- A witness dispatch of the four operations at a concrete unknown key. -/
theorem unknown_provider_routes_witness :
    (∀ prompt sys model choice oracles,
      llmGenerate prompt sys model (some "bogus") choice oracles =
        .error (.valueError ("Unsupported provider: " ++ "bogus"))) ∧
    generateStreamDispatch (some "bogus") =
      .error (.valueError ("Unsupported provider: " ++ "bogus")) ∧
    createEmbeddingsBatchDispatch (some "bogus") =
      .error (.valueError ("Unsupported provider: " ++ "bogus")) ∧
    createEmbeddingDispatch (some "bogus") = .gemini :=
  unknown_provider_routes "bogus" (by decide) (by decide) (by decide)
    (by decide) (by decide)

end AIPlat

namespace AIPlat

/-- C2: the chunker has no overlap-vs-size validation.  With overlap equal
to the window size the window step is zero, so on any text longer than one
window the loop guard stays true forever (the loop never terminates for any
iteration budget), and on a short text a chunk list is returned with no
error; no configuration is ever rejected. -/
theorem chunkText_no_overlap_validation :
    (∀ fuel idx acc,
      chunkLoop "d1" "doc" 2 2 ["a", "b", "c"] fuel 0 idx acc = Option.none) ∧
    chunkText "d1" "doc" "a b c" 2 2 = Option.none ∧
    chunkText "d1" "doc" "a b" 2 3 =
      some [⟨Option.none, "a b", "d1", "doc", 0, some 1⟩] := by
  refine ⟨?_, rfl, rfl⟩
  intro fuel
  induction fuel with
  | zero => intro idx acc; rfl
  | succ n ih =>
    intro idx acc
    rw [chunkLoop]
    have hlt : (0 : Int) < ((["a", "b", "c"] : List String).length : Int) := by
      norm_num
    rw [if_pos hlt]
    have hstep : (0 : Int) + (2 : Nat) - (2 : Nat) = 0 := by norm_num
    simpa [hstep] using ih (idx + 1) (acc ++ [_])

/-- C7: the point id of an upserted chunk depends only on the document id
and the chunk index (an md5 of the pair), so upserting the same
(document id, chunk index, content) twice - with whatever embeddings the
two batch calls return - leaves exactly one point in the store. -/
theorem addChunks_point_id_idempotent (docId dn content content2 : String)
    (idx : Nat) (emb1 emb2 : List Int) (m1 m2 : Option Nat) :
    pointIdOf ⟨Option.none, content, docId, dn, idx, m1⟩ =
      pointIdOf ⟨Option.none, content2, docId, dn, idx, m2⟩ ∧
    ∃ st1 st2,
      addChunks [⟨Option.none, content, docId, dn, idx, m1⟩]
        (.ok [emb1]) Option.none [] = .ok (1, st1) ∧
      addChunks [⟨Option.none, content, docId, dn, idx, m1⟩]
        (.ok [emb2]) Option.none st1 = .ok (1, st2) ∧
      st1.length = 1 ∧ st2.length = 1 := by
  refine ⟨rfl, ?_⟩
  refine ⟨_, _, rfl, rfl, rfl, ?_⟩
  simp [addChunks, qdrantUpsert, List.filter]

/-- C8: on the failure path the temporary file is not removed (the unlink
runs only on the success path), while a successful run does remove it.
The Bool component reports whether the temp file was deleted. -/
theorem processDocument_tmp_file_leak :
    processDocument "doc.pdf" 4 "docs" "3fa85f64-5717-4562-b3fc-2c963f66afa6"
      (.error (.valueError "Failed to extract text from PDF: boom"))
      (.ok []) Option.none [] 50 =
      some (.ok
        ({ name := "doc.pdf", fileSize := 4, collectionName := "docs",
           status := "failed",
           errorMessage := some "Failed to extract text from PDF: boom",
           chunkCount := 0, tokenCount := 0, processedAt := Option.none },
         [], false)) ∧
    ∃ doc st, processDocument "doc.pdf" 4 "docs"
        "3fa85f64-5717-4562-b3fc-2c963f66afa6"
        (.ok "alpha beta") (.ok [[1, 2]]) Option.none [] 50 =
        some (.ok (doc, st, true)) ∧ doc.status = "completed" := by
  exact ⟨rfl, _, _, rfl, rfl⟩

/-- C4, counterexample: a streaming query whose generation fails before
the first fragment (the behavior of the default mock provider, which the
streaming dispatcher rejects) yields only the sources event; no event of
type error is emitted, and the exception propagates out of the stream. -/
theorem stream_failure_yields_no_error_event :
    ragQueryStream
      (.ok [⟨"3fa85f64-5717-4562-b3fc-2c963f66afa6", "doc.txt", "Alpha beta.",
        1, some 1, 0⟩])
      ([], some (.valueError "Unsupported provider: mock")) =
      ([mkSourcesEvent [⟨"3fa85f64-5717-4562-b3fc-2c963f66afa6", "doc.txt",
        "Alpha beta.", 1, some 1, 0⟩]],
       some (.valueError "Unsupported provider: mock")) ∧
    (∀ ev ∈ [mkSourcesEvent [(⟨"3fa85f64-5717-4562-b3fc-2c963f66afa6",
        "doc.txt", "Alpha beta.", 1, some 1, 0⟩ : RetrievedChunk)]],
      ev.type ≠ "error") := by
  exact ⟨rfl, by decide⟩

/-- C4, as amended: a mid-stream generation failure propagates out of the
stream as the exception itself; the events emitted up to that point are
the sources event followed by the fragment events, none of them of type
error or done, and the SSE wrapper emits no DONE line for such a run; only
a failure-free run ends with the done event. -/
theorem ragQueryStream_error_propagates (chunks : List RetrievedChunk)
    (frags : List String) (e : PyErr) :
    ragQueryStream (.ok chunks) (frags, some e) =
      (mkSourcesEvent chunks :: frags.map mkChunkEvent, some e) ∧
    (∀ ev ∈ mkSourcesEvent chunks :: frags.map mkChunkEvent,
      ev.type ≠ "error" ∧ ev.type ≠ "done") ∧
    sseLines (ragQueryStream (.ok chunks) (frags, some e)) =
      ((mkSourcesEvent chunks :: frags.map mkChunkEvent).map
        (fun ev => "data: " ++ dumpStreamChunk ev ++ "\n\n"), some e) ∧
    ragQueryStream (.ok chunks) (frags, Option.none) =
      (mkSourcesEvent chunks :: (frags.map mkChunkEvent ++ [mkDoneEvent]),
       Option.none) := by
  refine ⟨rfl, ?_, ?_, ?_⟩
  · intro ev hev
    rcases List.mem_cons.mp hev with h | h
    · subst h
      exact ⟨show ("sources" : String) ≠ "error" by decide,
             show ("sources" : String) ≠ "done" by decide⟩
    · obtain ⟨t, _, rfl⟩ := List.mem_map.mp h
      exact ⟨show ("chunk" : String) ≠ "error" by decide,
             show ("chunk" : String) ≠ "done" by decide⟩
  · simp [sseLines, ragQueryStream]
  · simp [ragQueryStream]

/-- A witness run of the streaming specification with one retrieved chunk
and one fragment before the failure. -/
theorem ragQueryStream_error_propagates_witness :
    ragQueryStream (.ok []) (["frag"], some (.runtimeError "boom")) =
      (mkSourcesEvent [] :: ["frag"].map mkChunkEvent,
       some (.runtimeError "boom")) ∧
    (∀ ev ∈ mkSourcesEvent [] :: ["frag"].map mkChunkEvent,
      ev.type ≠ "error" ∧ ev.type ≠ "done") := by
  obtain ⟨h1, h2, _, _⟩ :=
    ragQueryStream_error_propagates [] ["frag"] (.runtimeError "boom")
  exact ⟨h1, h2⟩

end AIPlat

namespace AIPlat

/-- The i-th window of the sliding-window pass: size words starting at
word offset i times the step. -/
def windowChunk (docId docName : String) (size overlap : Nat)
    (words : List String) (i : Nat) : ChunkDict :=
  ⟨Option.none,
   String.intercalate " " ((words.drop (i * (size - overlap))).take size),
   docId, docName, i, Option.none⟩

/-- A Python slice with a non-negative in-range start and width-bounded
stop is a drop followed by a take. -/
theorem pySlice_eq_drop_take (l : List α) (s size : Nat) (h : s < l.length) :
    pySlice l (s : Int) ((s : Int) + (size : Nat)) = (l.drop s).take size := by
  have h1 : ¬((s : Int) < 0) := by omega
  have h2 : ¬((s : Int) + (size : Nat) < 0) := by omega
  simp only [pySlice]
  rw [if_neg h1, if_neg h2]
  have h3 : (min (s : Int) (l.length : Int)).toNat = s := by omega
  have h4 : (min ((s : Int) + (size : Nat)) (l.length : Int)).toNat =
      min (s + size) l.length := by omega
  rw [h3, h4, List.drop_take]
  rcases le_total (s + size) l.length with hle | hle
  · rw [min_eq_left hle]
    congr 1
    omega
  · rw [min_eq_right hle]
    rw [List.take_eq_take]  -- equal takes: both cover the whole remainder
    simp [List.length_drop]
    omega

/-- Invariant of the sliding-window loop under a valid configuration: from
window k with enough fuel, the loop returns the accumulated list followed
by one chunk per remaining window, indices continuing in emission order,
and it stops at the first window start at or past the word count. -/
theorem chunkLoop_spec (docId docName : String) (size overlap : Nat)
    (h : overlap < size) (words : List String) :
    ∀ fuel k acc,
      words.length ≤ (k + fuel) * (size - overlap) →
      ∃ m, chunkLoop docId docName size overlap words fuel
            ((k * (size - overlap) : Nat) : Int) k acc =
          some (acc ++ (List.range m).map
            (fun j => windowChunk docId docName size overlap words (k + j))) ∧
        words.length ≤ (k + m) * (size - overlap) ∧
        (∀ j < m, (k + j) * (size - overlap) < words.length) := by
  intro fuel
  induction fuel with
  | zero =>
    intro k acc hfuel
    have hn : words.length ≤ k * (size - overlap) := by simpa using hfuel
    refine ⟨0, ?_, by simpa using hfuel, by omega⟩
    rw [chunkLoop, if_neg (by exact_mod_cast not_lt.mpr hn)]
    simp
  | succ n ih =>
    intro k acc hfuel
    by_cases hk : k * (size - overlap) < words.length
    · rw [chunkLoop, if_pos (by exact_mod_cast hk)]
      have hslice : pySlice words ((k * (size - overlap) : Nat) : Int)
          (((k * (size - overlap) : Nat) : Int) + (size : Int)) =
          (words.drop (k * (size - overlap))).take size := by
        have := pySlice_eq_drop_take words (k * (size - overlap)) size hk
        simpa using this
      have hwc : (⟨Option.none,
          String.intercalate " " ((words.drop (k * (size - overlap))).take size),
          docId, docName, k, Option.none⟩ : ChunkDict) =
          windowChunk docId docName size overlap words k := rfl
      have hstart : ((k * (size - overlap) : Nat) : Int) + (size : Int)
          - (overlap : Int) = (((k + 1) * (size - overlap) : Nat) : Int) := by
        push_cast [Nat.succ_mul]
        omega
      obtain ⟨m', hloop, hle, hlt⟩ :=
        ih (k + 1)
          (acc ++ [windowChunk docId docName size overlap words k])
          (by calc words.length ≤ (k + (n + 1)) * (size - overlap) := hfuel
                _ = ((k + 1) + n) * (size - overlap) := by ring)
      refine ⟨m' + 1, ?_, by rw [show k + (m' + 1) = (k + 1) + m' by ring]; exact hle, ?_⟩
      · dsimp only
        rw [hslice, hwc, hstart, hloop]
        congr 1
        rw [List.range_succ_eq_map, List.map_cons, List.map_map]
        have hf : ((fun j => windowChunk docId docName size overlap words (k + j))
            ∘ Nat.succ) = fun j => windowChunk docId docName size overlap words
              ((k + 1) + j) := by
          funext j
          simp only [Function.comp_apply]
          congr 1
          omega
        rw [hf]
        simp [List.append_assoc]
      · intro j hj
        match j with
        | 0 => simpa using hk
        | j' + 1 =>
          have := hlt j' (by omega)
          rw [show k + (j' + 1) = (k + 1) + j' by ring]
          exact this
    · have hn : words.length ≤ k * (size - overlap) := not_lt.mp hk
      refine ⟨0, ?_, by simpa using hn, by omega⟩
      rw [chunkLoop, if_neg (by exact_mod_cast not_lt.mpr hn)]
      simp

/-- Under a valid configuration the chunker always terminates and returns
a chunk list. -/
theorem chunkText_total (docId docName text : String) (size overlap : Nat)
    (h : overlap < size) :
    ∃ cs, chunkText docId docName text size overlap = some cs := by
  unfold chunkText
  by_cases hsmall : (pySplit text).length ≤ size
  · rw [if_pos hsmall]
    exact ⟨_, rfl⟩
  · rw [if_neg hsmall]
    have hstep : 1 ≤ size - overlap := by omega
    have hfuel : (pySplit text).length ≤
        (0 + (pySplit text).length) * (size - overlap) := by
      have := Nat.mul_le_mul_left (pySplit text).length hstep
      simpa using this
    obtain ⟨m, hloop, -, -⟩ :=
      chunkLoop_spec docId docName size overlap h (pySplit text)
        (pySplit text).length 0 [] hfuel
    rw [show ((0 * (size - overlap) : Nat) : Int) = (0 : Int) by simp] at hloop
    rw [hloop]
    exact ⟨_, rfl⟩

end AIPlat

namespace AIPlat

/-- C6: under a valid configuration (overlap below chunk size), a text
whose word count fits in one window yields exactly one chunk covering the
whole text with index 0 and total 1; otherwise chunk i covers the size-word
window starting at word offset i times (size minus overlap), windows are
emitted exactly while their start is below the word count, each chunk
records its emission position as its index, and every chunk's metadata
carries the final chunk count. -/
theorem chunkText_spec (docId docName text : String) (size overlap : Nat)
    (h : overlap < size) :
    ((pySplit text).length ≤ size →
      chunkText docId docName text size overlap =
        some [⟨Option.none, pyStrip text, docId, docName, 0, some 1⟩]) ∧
    (size < (pySplit text).length →
      ∃ cs, chunkText docId docName text size overlap = some cs ∧
        (pySplit text).length ≤ cs.length * (size - overlap) ∧
        (∀ i < cs.length, i * (size - overlap) < (pySplit text).length) ∧
        (∀ i (hi : i < cs.length), cs.get ⟨i, hi⟩ =
          ⟨Option.none,
           String.intercalate " "
             (((pySplit text).drop (i * (size - overlap))).take size),
           docId, docName, i, some cs.length⟩)) := by
  constructor
  · intro hsmall
    unfold chunkText
    rw [if_pos hsmall]
  · intro hbig
    unfold chunkText
    rw [if_neg (not_le.mpr hbig)]
    have hstep : 1 ≤ size - overlap := by omega
    have hfuel : (pySplit text).length ≤
        (0 + (pySplit text).length) * (size - overlap) := by
      have := Nat.mul_le_mul_left (pySplit text).length hstep
      simpa using this
    obtain ⟨m, hloop, hle, hlt⟩ :=
      chunkLoop_spec docId docName size overlap h (pySplit text)
        (pySplit text).length 0 [] hfuel
    rw [show ((0 * (size - overlap) : Nat) : Int) = (0 : Int) by simp] at hloop
    rw [hloop]
    refine ⟨_, rfl, ?_, ?_, ?_⟩
    · simpa using hle
    · intro i hi
      simp only [List.length_map, List.length_range, List.nil_append] at hi
      simpa using hlt i hi
    · intro i hi
      simp only [List.nil_append, List.get_eq_getElem, List.getElem_map,
        List.getElem_range, List.length_map, List.length_range]
      simp only [List.nil_append, List.length_map, List.length_range] at hi
      simp [windowChunk]

/-- A witness pair of chunker runs: a three-word text inside one window,
and a five-word text with size 3 and overlap 1 (window starts 0, 2, 4). -/
theorem chunkText_spec_witness :
    (chunkText "d1" "doc" "tiny text here" 3 1 =
      some [⟨Option.none, pyStrip "tiny text here", "d1", "doc", 0, some 1⟩]) ∧
    ∃ cs, chunkText "d2" "doc" "a b c d e" 3 1 = some cs ∧
      (pySplit "a b c d e").length ≤ cs.length * (3 - 1) ∧
      (∀ i < cs.length, i * (3 - 1) < (pySplit "a b c d e").length) ∧
      (∀ i (hi : i < cs.length), cs.get ⟨i, hi⟩ =
        ⟨Option.none,
         String.intercalate " "
           (((pySplit "a b c d e").drop (i * (3 - 1))).take 3),
         "d2", "doc", i, some cs.length⟩) := by
  exact ⟨(chunkText_spec "d1" "doc" "tiny text here" 3 1 (by decide)).1 (by decide),
         (chunkText_spec "d2" "doc" "a b c d e" 3 1 (by decide)).2 (by decide)⟩

end AIPlat

namespace AIPlat

/-- C5: a size-validated run of the ingestion pipeline never propagates a
stage error: whatever the extraction, embedding and upsert outcomes, the
call returns a Document.  Extraction or embedding/upsert failure leaves a
failed document carrying the failure message (and the store untouched); a
failure-free run completes with the upserted point count, the word count of
the extracted text, and a processing timestamp. -/
theorem processDocument_reports_failures (filename : String) (fileSize : Nat)
    (coll docId : String) (extractR : Except PyErr String)
    (embedR : Except PyErr (List (List Int))) (upsertFail : Option PyErr)
    (st : QdrantStore) (now : Nat)
    (hsize : fileSize ≤ uploadMaxSizeMb * 1024 * 1024) :
    ∃ doc st2 deleted,
      processDocument filename fileSize coll docId extractR embedR upsertFail
          st now = some (.ok (doc, st2, deleted)) ∧
      ((∃ e, extractR = .error e ∧ doc.status = "failed" ∧
          doc.errorMessage = some e.msg ∧ st2 = st ∧ deleted = false) ∨
       (∃ text chunks e, extractR = .ok text ∧
          chunkText docId filename text 1000 200 = some chunks ∧
          addChunks chunks embedR upsertFail st = .error e ∧
          doc.status = "failed" ∧ doc.errorMessage = some e.msg ∧
          st2 = st ∧ deleted = false) ∨
       (∃ text chunks cnt, extractR = .ok text ∧
          chunkText docId filename text 1000 200 = some chunks ∧
          addChunks chunks embedR upsertFail st = .ok (cnt, st2) ∧
          doc.status = "completed" ∧ doc.errorMessage = Option.none ∧
          doc.chunkCount = cnt ∧ doc.tokenCount = (pySplit text).length ∧
          doc.processedAt = some now ∧ deleted = true)) := by
  unfold processDocument
  rw [if_neg (not_lt.mpr hsize)]
  cases extractR with
  | error e =>
    exact ⟨_, st, false, rfl, Or.inl ⟨e, rfl, rfl, rfl, rfl, rfl⟩⟩
  | ok text =>
    obtain ⟨chunks, hch⟩ :=
      chunkText_total docId filename text 1000 200 (by norm_num)
    dsimp only
    rw [hch]
    dsimp only
    cases hadd : addChunks chunks embedR upsertFail st with
    | error e =>
      exact ⟨_, st, false, rfl,
        Or.inr (Or.inl ⟨text, chunks, e, rfl, hch, hadd, rfl, rfl, rfl, rfl⟩)⟩
    | ok p =>
      exact ⟨_, p.2, true, rfl,
        Or.inr (Or.inr ⟨text, chunks, p.1, rfl, hch, hadd, rfl, rfl, rfl, rfl,
          rfl, rfl⟩)⟩

/-- A witness ingestion with a failure-free two-word text and one-point
upsert. -/
theorem processDocument_reports_failures_witness :
    ∃ doc st2 deleted,
      processDocument "n.txt" 5 "col" "d7" (.ok "alpha beta")
          (.ok [[1, 2]]) Option.none [] 9 = some (.ok (doc, st2, deleted)) ∧
      ((∃ e, (Except.ok "alpha beta" : Except PyErr String) = .error e ∧
          doc.status = "failed" ∧ doc.errorMessage = some e.msg ∧
          st2 = ([] : QdrantStore) ∧ deleted = false) ∨
       (∃ text chunks e, (Except.ok "alpha beta" : Except PyErr String) = .ok text ∧
          chunkText "d7" "n.txt" text 1000 200 = some chunks ∧
          addChunks chunks (.ok [[1, 2]]) Option.none [] = .error e ∧
          doc.status = "failed" ∧ doc.errorMessage = some e.msg ∧
          st2 = ([] : QdrantStore) ∧ deleted = false) ∨
       (∃ text chunks cnt, (Except.ok "alpha beta" : Except PyErr String) = .ok text ∧
          chunkText "d7" "n.txt" text 1000 200 = some chunks ∧
          addChunks chunks (.ok [[1, 2]]) Option.none [] = .ok (cnt, st2) ∧
          doc.status = "completed" ∧ doc.errorMessage = Option.none ∧
          doc.chunkCount = cnt ∧ doc.tokenCount = (pySplit text).length ∧
          doc.processedAt = some 9 ∧ deleted = true)) :=
  processDocument_reports_failures "n.txt" 5 "col" "d7" (.ok "alpha beta")
    (.ok [[1, 2]]) Option.none [] 9 (by decide)

end AIPlat

namespace AIPlat

/-- Whether a Python value is a dict or a list (the values RedisCache
serializes through json). -/
def isObjOrArr : PyVal → Bool
  | .obj _ => true
  | .arr _ => true
  | _ => false

/-- C10, counterexample: RedisCache stores plain strings raw, so the
empty string reads back as absent and the string 123 reads back as the
number 123 - neither equals the value that was set. -/
theorem redisCache_string_roundtrip_fails :
    redisCacheSet [] 0 "k" (.str "") (some 60) =
      .ok [⟨"cache:k", "", some 60⟩] ∧
    redisCacheGet [⟨"cache:k", "", some 60⟩] 0 "k" = Option.none ∧
    redisCacheSet [] 0 "k2" (.str "123") (some 60) =
      .ok [⟨"cache:k2", "123", some 60⟩] ∧
    redisCacheGet [⟨"cache:k2", "123", some 60⟩] 0 "k2" = some (.num 123) := by
  exact ⟨rfl, rfl, rfl, rfl⟩

/-- C10, as amended: a set followed immediately by a get returns an equal
value whenever the stored serialized form parses back to the value - which
json guarantees for the dict and list values RedisCache serializes, and
RedisClient serializes every value that way - while a get at or after the
expiry instant returns absent. -/
theorem cache_roundtrip_and_expiry (st : RedisStore) (now : Nat)
    (key : String) (v : PyVal) (ttl : Nat) (httl : 0 < ttl) (s : String)
    (hs : jsonDumps v = .ok s) (hrt : jsonLoads s = some v) :
    (redisClientSet st now key v (some ttl) =
       (true, redisSet st now key s (some ttl)) ∧
     redisClientGet (redisSet st now key s (some ttl)) now key = some v ∧
     (∀ t, now + ttl ≤ t →
       redisClientGet (redisSet st now key s (some ttl)) t key =
         Option.none)) ∧
    (isObjOrArr v = true →
      redisCacheSet st now key v (some ttl) =
        .ok (redisSet st now (cachePrefixed key) s (some ttl)) ∧
      redisCacheGet (redisSet st now (cachePrefixed key) s (some ttl)) now key
        = some v ∧
      (∀ t, now + ttl ≤ t →
        redisCacheGet (redisSet st now (cachePrefixed key) s (some ttl)) t key
          = Option.none)) := by
  have hsne : s ≠ "" := by
    intro hcontra
    rw [hcontra] at hrt
    exact Option.noConfusion ((rfl : jsonLoads "" = Option.none) ▸ hrt)
  have hsempty : s.isEmpty = false := by
    rcases hb : s.isEmpty with _ | _
    · rfl
    · exact absurd ((String.isEmpty_iff s).mp hb) hsne
  have hget : ∀ k t, redisGet (redisSet st now k s (some ttl)) t k =
      if t < now + ttl then some s else Option.none := by
    intro k t
    simp [redisGet, redisSet, List.find?]
  constructor
  · refine ⟨?_, ?_, ?_⟩
    · simp [redisClientSet, hs]
    · simp [redisClientGet, hget, httl, hsempty, hrt]
    · intro t ht
      simp [redisClientGet, hget, Nat.not_lt.mpr ht]
  · intro hv
    have hset : redisCacheSet st now key v (some ttl) =
        .ok (redisSet st now (cachePrefixed key) s (some ttl)) := by
      have heff : pyOrNatOpt (some ttl) redisCacheTtl = ttl := by
        simp [pyOrNatOpt]
        omega
      cases v with
      | obj fs => simp [redisCacheSet, hs, heff, Except.map]
      | arr xs => simp [redisCacheSet, hs, heff, Except.map]
      | null => cases hv
      | bool b => cases hv
      | num n => cases hv
      | str t => cases hv
      | uuid u => cases hv
    refine ⟨hset, ?_, ?_⟩
    · simp [redisCacheGet, hget, httl, hsempty, hrt]
    · intro t ht
      simp [redisCacheGet, hget, Nat.not_lt.mpr ht]

/-- A witness round trip at a concrete list value (its JSON form parses
back to it), with the TTL boundary instant checked. -/
theorem cache_roundtrip_and_expiry_witness :
    redisClientGet (redisSet [] 0 "k" "[1, \"x\"]" (some 60)) 0 "k" =
      some (.arr [.num 1, .str "x"]) ∧
    redisClientGet (redisSet [] 0 "k" "[1, \"x\"]" (some 60)) 60 "k" =
      Option.none ∧
    redisCacheGet (redisSet [] 0 (cachePrefixed "k") "[1, \"x\"]" (some 60)) 0 "k"
      = some (.arr [.num 1, .str "x"]) ∧
    redisCacheGet (redisSet [] 0 (cachePrefixed "k") "[1, \"x\"]" (some 60)) 60 "k"
      = Option.none := by
  obtain ⟨⟨-, hc2, hc3⟩, hobj⟩ :=
    cache_roundtrip_and_expiry [] 0 "k" (.arr [.num 1, .str "x"]) 60
      (by decide) "[1, \"x\"]" rfl rfl
  obtain ⟨-, hd2, hd3⟩ := hobj rfl
  exact ⟨hc2, hc3 60 (by decide), hd2, hd3 60 (by decide)⟩

end AIPlat

namespace AIPlat

/-- Equality on Except outcomes is decidable when both sides are. -/
instance exceptDecEq {e a : Type} [DecidableEq e] [DecidableEq a] :
    DecidableEq (Except e a) := fun x y =>
  match x, y with
  | .ok v, .ok w =>
    if h : v = w then isTrue (by rw [h])
    else isFalse (fun hc => by cases hc; exact h rfl)
  | .error v, .error w =>
    if h : v = w then isTrue (by rw [h])
    else isFalse (fun hc => by cases hc; exact h rfl)
  | .ok _, .error _ => isFalse (fun hc => by cases hc)
  | .error _, .ok _ => isFalse (fun hc => by cases hc)

/-- The query of the cache-hit scenario. -/
def c1Query : RAGQuery :=
  ⟨"What is X?", "docs", 5, 0, Option.none, Option.none⟩

/-- First run of the scenario: an empty cache, retrieval finds nothing
above threshold, and the default mock provider answers.  The response is
cached under the md5 key of query and collection. -/
def c1FirstRun : Except PyErr RAGResponse × RedisStore × QueryEffects :=
  ragQuery c1Query [] 100 100 (.ok []) (0 : Fin 5) idleOracles

set_option maxRecDepth 100000 in
/-- C1: the first run answers and caches with cached false; the identical
query inside the TTL then finds its key in the cache, and the cache-hit
path raises TypeError (the cached dump already holds a cached entry, and
the constructor call passes cached twice) instead of returning the cached
response - performing neither retrieval nor generation. -/
theorem ragQuery_cache_hit_crashes :
    (∃ r, c1FirstRun.1 = .ok r ∧ r.cached = false) ∧
    ragQuery c1Query c1FirstRun.2.1 200 200 (.ok []) (0 : Fin 5) idleOracles =
      (.error (.typeError "got multiple values for keyword argument cached"),
       c1FirstRun.2.1, ⟨false, false⟩) := by
  refine ⟨⟨_, rfl, rfl⟩, by decide⟩

end AIPlat
